import Mathlib

/-!
Shallow embedding of `src/backend/scraper.py` (saitama-weather).

The scraper fetches a weather page, extracts temperature, wind speed,
precipitation and an observation time with Python `re`, and inserts a row
into a Supabase table.  The HTML library (BeautifulSoup) is abstracted:
a `Page` holds the text of the `observedValue` section (if present), the
texts of the `obs_block` elements, and the full raw page text, which is
exactly the data the script reads from the soup.  The regular expressions
of the script are embedded literally via a small backtracking matcher
with Python semantics (leftmost match, greedy quantifiers that give back
on failure).  `datetime` is embedded as a naive civil timestamp: the
script never attaches a timezone, `replace` validates field ranges and
raises `ValueError` outside them, and `isoformat` prints the microsecond
part only when it is nonzero.
-/

namespace SaitamaWeather

/-- Capture list of a regex match: group number paired with the consumed
characters of that group. -/
abbrev Caps := List (Nat × List Char)

/-- Abstract syntax of the (tiny) fragment of Python regexes the script
uses: literals, single-character classes, greedy `*`, `+`, `?` and `{1,2}`
over a character class, concatenation, and numbered capture groups. -/
inductive RE where
  | lit : List Char → RE
  | cls : (Char → Bool) → RE
  | clsStar : (Char → Bool) → RE
  | clsPlus : (Char → Bool) → RE
  | clsOpt : (Char → Bool) → RE
  | clsRep12 : (Char → Bool) → RE
  | cat : RE → RE → RE
  | group : Nat → RE → RE

/-- Greedy Kleene star over a character class, continuation passing:
consume as many `p`-characters as possible, then give back one at a time
when the continuation fails — Python backtracking order. -/
def starG (p : Char → Bool) : List Char → Caps → (List Char → Caps → Option Caps) → Option Caps
  | [], caps, k => k [] caps
  | c :: t, caps, k =>
    if p c then
      match starG p t caps k with
      | some r => some r
      | none => k (c :: t) caps
    else k (c :: t) caps

/-- Backtracking matcher in continuation-passing style.  `mtch re s caps k`
tries to match `re` at the head of `s`; on each way of matching it calls
`k` with the rest of the input and the captures collected so far, taking
alternatives in Python order (greedy first). -/
def mtch : RE → List Char → Caps → (List Char → Caps → Option Caps) → Option Caps
  | .lit l, s, caps, k => if l.isPrefixOf s then k (s.drop l.length) caps else none
  | .cls p, s, caps, k =>
    match s with
    | [] => none
    | c :: t => if p c then k t caps else none
  | .clsStar p, s, caps, k => starG p s caps k
  | .clsPlus p, s, caps, k =>
    match s with
    | [] => none
    | c :: t => if p c then starG p t caps k else none
  | .clsOpt p, s, caps, k =>
    match s with
    | [] => k [] caps
    | c :: t =>
      if p c then
        match k t caps with
        | some r => some r
        | none => k (c :: t) caps
      else k (c :: t) caps
  | .clsRep12 p, s, caps, k =>
    match s with
    | [] => none
    | c :: t =>
      if p c then
        match t with
        | [] => k [] caps
        | d :: u =>
          if p d then
            match k u caps with
            | some r => some r
            | none => k t caps
          else k t caps
      else none
  | .cat a b, s, caps, k => mtch a s caps (fun s1 caps1 => mtch b s1 caps1 k)
  | .group n a, s, caps, k =>
    mtch a s caps (fun s1 caps1 => k s1 ((n, s.take (s.length - s1.length)) :: caps1))

/-- `re.search`: try the pattern at every start position, leftmost first,
returning the captures of the first successful match. -/
def searchAux (re : RE) : List Char → Option Caps
  | [] => mtch re [] [] (fun _ caps => some caps)
  | c :: t =>
    match mtch re (c :: t) [] (fun _ caps => some caps) with
    | some caps => some caps
    | none => searchAux re t

/-- Python `[^\d]` character class (complement of decimal digits). -/
def nonDigit (c : Char) : Bool := !c.isDigit

/-- Python `\s` whitespace class (the cases occurring on this page). -/
def pySpace (c : Char) : Bool :=
  c = ' ' || c = '\t' || c = '\n' || c = '\r' || c = '\x0b' || c = '\x0c' || c = '　'

/-- `-?\d+\.?\d*`: optionally signed decimal number (temperature shape). -/
def numSigned : RE :=
  .cat (.clsOpt (· = '-')) (.cat (.clsPlus Char.isDigit) (.cat (.clsOpt (· = '.')) (.clsStar Char.isDigit)))

/-- `\d+\.?\d*`: unsigned decimal number (wind / precipitation shape). -/
def numUnsigned : RE :=
  .cat (.clsPlus Char.isDigit) (.cat (.clsOpt (· = '.')) (.clsStar Char.isDigit))

/-- `(\d{1,2}):(\d{2})\s*時点` — observation time pattern (line 74). -/
def reTime : RE :=
  .cat (.group 1 (.clsRep12 Char.isDigit))
    (.cat (.lit [':'])
      (.cat (.group 2 (.cat (.cls Char.isDigit) (.cls Char.isDigit)))
        (.cat (.clsStar pySpace) (.lit "時点".data))))

/-- `気温[^\d]*(-?\d+\.?\d*)` — keyword temperature pattern (line 84). -/
def reTempKeyword : RE :=
  .cat (.lit "気温".data) (.cat (.clsStar nonDigit) (.group 1 numSigned))

/-- `(-?\d+\.\d+)` — fallback temperature pattern (line 90). -/
def reTempFallback : RE :=
  .group 1 (.cat (.clsOpt (· = '-'))
    (.cat (.clsPlus Char.isDigit) (.cat (.cls (· = '.')) (.clsPlus Char.isDigit))))

/-- `(\d+\.?\d*)\s*m/s` — wind pattern of Method 1 (line 97). -/
def reWind : RE :=
  .cat (.group 1 numUnsigned) (.cat (.clsStar pySpace) (.lit "m/s".data))

/-- `(-?\d+\.?\d*)` — temperature pattern inside an obs block (line 110). -/
def reBlockTemp : RE := .group 1 numSigned

/-- `(\d+\.?\d*)\s*m` — wind pattern inside an obs block (line 117). -/
def reBlockWind : RE :=
  .cat (.group 1 numUnsigned) (.cat (.clsStar pySpace) (.lit ['m']))

/-- `(\d+\.?\d*)\s*ミリ` — precipitation pattern (line 125); the script
takes `findall(...)[0]`, which is the leftmost match, i.e. `search`. -/
def rePrecip : RE :=
  .cat (.group 1 numUnsigned) (.cat (.clsStar pySpace) (.lit "ミリ".data))

/-- Run a search and return capture group 1 as a string. -/
def searchGroup1 (re : RE) (s : String) : Option String :=
  match searchAux re s.data with
  | some caps => (caps.lookup 1).map (fun l => String.mk l)
  | none => none

/-- Python `int` on a captured digit string. -/
def digitsToNat (l : List Char) : Nat :=
  l.foldl (fun a c => a * 10 + (c.toNat - 48)) 0

/-- Search for the observation time pattern and return `(hour, minute)`
as numbers, as lines 74-77 of the script do. -/
def searchTime (s : String) : Option (Nat × Nat) :=
  match searchAux reTime s.data with
  | some caps =>
    match caps.lookup 1, caps.lookup 2 with
    | some g1, some g2 => some (digitsToNat g1, digitsToNat g2)
    | _, _ => none
  | none => none

/-- Python substring membership `needle in hay` on char lists. -/
def containsSubL : List Char → List Char → Bool
  | n, [] => n.isEmpty
  | n, c :: t => n.isPrefixOf (c :: t) || containsSubL n t

/-- Python substring membership `needle in hay` on strings. -/
def containsSub (needle hay : String) : Bool :=
  containsSubL needle.data hay.data

/-- Naive Python `datetime` value as the script uses it: `datetime.now()`
carries no timezone, so the embedding has no offset field. -/
structure PyDateTime where
  year : Nat
  month : Nat
  day : Nat
  hour : Nat
  minute : Nat
  second : Nat
  microsecond : Nat
deriving DecidableEq

/-- `today.replace(hour=h, minute=m, second=0, microsecond=0)` (line 79).
Python raises `ValueError` when the new hour or minute is out of range,
which is possible here because the time regex admits hours up to 99 and
minutes up to 99. -/
def pyReplaceTime (d : PyDateTime) (h m : Nat) : Except String PyDateTime :=
  if h ≤ 23 ∧ m ≤ 59 then
    .ok { d with hour := h, minute := m, second := 0, microsecond := 0 }
  else .error "ValueError"

/-- Zero-padded decimal rendering of `n` to width `w`. -/
def pad (w n : Nat) : String :=
  let s := toString n
  String.mk (List.replicate (w - s.length) '0') ++ s

/-- Python `datetime.isoformat()` on a naive value: no offset suffix, and
the microsecond part is printed only when nonzero. -/
def isoformat (d : PyDateTime) : String :=
  pad 4 d.year ++ "-" ++ pad 2 d.month ++ "-" ++ pad 2 d.day ++ "T" ++
    pad 2 d.hour ++ ":" ++ pad 2 d.minute ++ ":" ++ pad 2 d.second ++
    (if d.microsecond = 0 then "" else "." ++ pad 6 d.microsecond)

/-- The data the script reads out of the parsed HTML: the text of the
`observedValue` element when one exists (line 67), the texts of the
`obs_block` elements in document order (line 104), and the raw page text
used for the page-wide precipitation search (line 126). -/
structure Page where
  obsSection : Option String
  obsBlocks : List String
  htmlContent : String

/-- The dictionary returned by `scrape_weather_data` (lines 140-145). -/
structure Reading where
  temperature : String
  wind : String
  precipitation : String
  created_at : String
deriving DecidableEq

/-- Temperature extraction of Method 1 (lines 82-93): the keyword
pattern, then the bare-decimal fallback, then the sentinel. -/
def method1Temp (obsText : String) : String :=
  match searchGroup1 reTempKeyword obsText with
  | some t => t
  | none =>
    match searchGroup1 reTempFallback obsText with
    | some t => t
    | none => "N/A"

/-- Wind extraction of Method 1 (lines 95-100). -/
def method1Wind (obsText : String) : String :=
  match searchGroup1 reWind obsText with
  | some w => w
  | none => "N/A"

/-- Method 1 (lines 66-100): the `observedValue` section parse.  Returns
the temperature, the wind and the optional observation time, or the
`ValueError` that `replace` raises on an out-of-range captured time. -/
def method1 (obsSection : Option String) (today : PyDateTime) :
    Except String (String × String × Option PyDateTime) :=
  match obsSection with
  | none => .ok ("N/A", "N/A", none)
  | some obsText =>
    let otE : Except String (Option PyDateTime) :=
      match searchTime obsText with
      | none => .ok none
      | some hm => (pyReplaceTime today hm.1 hm.2).map some
    match otE with
    | .error e => .error e
    | .ok ot => .ok (method1Temp obsText, method1Wind obsText, ot)

/-- Method 2 (lines 102-120): the loop over the `obs_block` elements.
Each matching block overwrites the current value; the loop has no break,
so the last matching block in document order wins. -/
def method2 (blocks : List String) (temperature wind : String) : String × String :=
  match blocks with
  | [] => (temperature, wind)
  | b :: rest =>
    let temperature1 :=
      if containsSub "気温" b then
        match searchGroup1 reBlockTemp b with
        | some t => t
        | none => temperature
      else temperature
    let wind1 :=
      if containsSub "風" b || containsSub "m/s" b then
        match searchGroup1 reBlockWind b with
        | some w => w
        | none => wind
      else wind
    method2 rest temperature1 wind1

/-- `scrape_weather_data` (lines 31-145) after the fetch: the parsing and
normalization pipeline on the page data.  `today` embeds the script's
`datetime.now()` reference instant (lines 60 and 135 both read the
current clock). -/
def scrape_weather_data (page : Page) (today : PyDateTime) : Except String Reading :=
  match method1 page.obsSection today with
  | .error e => .error e
  | .ok twt =>
    let t1 := twt.1
    let w1 := twt.2.1
    let ot := twt.2.2
    let tw := if t1 = "N/A" then method2 page.obsBlocks t1 w1 else (t1, w1)
    let precipitation :=
      match searchGroup1 rePrecip page.htmlContent with
      | some p => p
      | none => "0"
    let timestamp :=
      match ot with
      | some t => isoformat t
      | none => isoformat today
    .ok { temperature := tw.1, wind := tw.2, precipitation := precipitation,
          created_at := timestamp }

example : searchGroup1 reTempKeyword "気温 1.6℃" = some "1.6" := rfl
example : searchGroup1 reTempKeyword "気温 -3.2℃" = some "3.2" := rfl
example : searchGroup1 reWind "風 0.6 m/s" = some "0.6" := rfl
example : searchTime "22:40時点" = some (22, 40) := rfl
example : searchTime "気温 1.6℃" = none := rfl
example : searchGroup1 reTempFallback "23:50時点" = none := rfl
example : containsSub "気温" "気温 5.0" = true := rfl

example :
    scrape_weather_data ⟨some "気温 1.6℃ 風 0.6m/s 22:40時点", [], "0.5ミリ"⟩
      ⟨2026, 1, 10, 22, 45, 0, 0⟩ =
    .ok ⟨"1.6", "0.6", "0.5", "2026-01-10T22:40:00"⟩ := rfl

/-- The environment variables the script reads (lines 24-25); the empty
string stands for an unset variable, exactly the default of
`os.environ.get(..., "")`. -/
structure Env where
  supabase_url : String
  supabase_key : String

/-- A row of the `weather_saitama` table with its store-assigned id. -/
structure StoredRecord where
  id : Nat
  temperature : String
  wind : String
  precipitation : String
  created_at : String
deriving DecidableEq

/-- The external Supabase table: its rows, the next id the store would
assign, and whether the network call to the store fails (the store is an
external collaborator, so its availability is an input). -/
structure Store where
  records : List StoredRecord
  nextId : Nat
  failing : Bool
deriving DecidableEq

/-- `get_supabase_client` (lines 22-28): raises `ValueError` when either
environment variable is missing. -/
def get_supabase_client (env : Env) : Except String Env :=
  if env.supabase_url = "" ∨ env.supabase_key = "" then
    .error "SUPABASE_URL and SUPABASE_KEY environment variables must be set"
  else .ok env

/-- `insert_weather_data` (lines 148-162): builds the client and inserts
the row unconditionally — the function performs no select and no
duplicate check of any kind.  A failing store raises. -/
def insert_weather_data (env : Env) (data : Reading) (store : Store) :
    Except String (Store × StoredRecord) :=
  match get_supabase_client env with
  | .error e => .error e
  | .ok _ =>
    if store.failing then .error "StoreError"
    else
      let row : StoredRecord :=
        ⟨store.nextId, data.temperature, data.wind, data.precipitation, data.created_at⟩
      .ok ({ records := store.records ++ [row], nextId := store.nextId + 1,
             failing := store.failing }, row)

/-- Number of stored rows whose `created_at` equals `ts`. -/
def recordsAt (store : Store) (ts : String) : Nat :=
  (store.records.filter (fun r => r.created_at = ts)).length

/-- Externally visible actions of one run, in program order. -/
inductive Event where
  | fetchAttempt
  | insertAttempt
deriving DecidableEq

/-- `run_scraper_once` (lines 165-191).  The fetch happens first, inside
`scrape_weather_data` (line 173 calls it before anything else); only
after scraping does the function check the credentials (lines 177-182)
and, when they are present, try the insert, returning `False` on an
insert exception (lines 184-191).  Fetch and parse exceptions propagate
to the caller.  The result is the returned status (or the propagated
exception), the event trace in program order, and the resulting store. -/
def run_scraper_once (env : Env) (fetchResult : Except String Page)
    (today : PyDateTime) (store : Store) :
    Except String Bool × List Event × Store :=
  match fetchResult with
  | .error e => (.error e, [Event.fetchAttempt], store)
  | .ok page =>
    match scrape_weather_data page today with
    | .error e => (.error e, [Event.fetchAttempt], store)
    | .ok reading =>
      if env.supabase_url = "" ∨ env.supabase_key = "" then
        (.ok false, [Event.fetchAttempt], store)
      else
        match insert_weather_data env reading store with
        | .ok res => (.ok true, [Event.fetchAttempt, Event.insertAttempt], res.1)
        | .error _ => (.ok false, [Event.fetchAttempt, Event.insertAttempt], store)

/-- What one iteration of `main` (lines 202-225) does with the outcome of
`run_scraper_once`: a returned status is printed and the loop sleeps and
continues; any exception is caught, printed, and the loop sleeps and
continues.  The loop never exits with a failure status; the only exit is
an external `KeyboardInterrupt`. -/
inductive IterOutcome where
  | sleepRetry (success : Bool)
  | swallowSleepRetry
deriving DecidableEq

/-- One iteration of the `while True` loop of `main`. -/
def main_iteration (runResult : Except String Bool) : IterOutcome :=
  match runResult with
  | .ok b => .sleepRetry b
  | .error _ => .swallowSleepRetry

/-- The value the Method-2 loop body would store for temperature from one
block: present iff the block contains the temperature keyword and the
numeric pattern matches. -/
def blockTempValue (b : String) : Option String :=
  if containsSub "気温" b then searchGroup1 reBlockTemp b else none

/-- The value the Method-2 loop body would store for wind from one block:
present iff the block contains the wind keyword or the unit token and the
numeric pattern matches. -/
def blockWindValue (b : String) : Option String :=
  if containsSub "風" b || containsSub "m/s" b then searchGroup1 reBlockWind b else none

/-- Last element of a list, with a default for the empty list. -/
def lastD : List String → String → String
  | [], d => d
  | v :: rest, _ => lastD rest v

/-- The captured observation time, if any, has in-range hour and minute.
This is the exact condition under which `replace` does not raise. -/
def timeFieldsValid (page : Page) : Bool :=
  match page.obsSection with
  | none => true
  | some s =>
    match searchTime s with
    | none => true
    | some hm => hm.1 ≤ 23 && hm.2 ≤ 59

/-- Unfolding of one step of the Method-2 loop. -/
theorem method2_cons (b : String) (rest : List String) (t w : String) :
    method2 (b :: rest) t w =
      method2 rest ((blockTempValue b).getD t) ((blockWindValue b).getD w) := by
  simp only [method2, blockTempValue, blockWindValue]
  congr 1
  · cases hc : containsSub "気温" b
    · simp
    · cases hg : searchGroup1 reBlockTemp b <;> simp [hg]
  · cases hc : (containsSub "風" b || containsSub "m/s" b)
    · simp
    · cases hg : searchGroup1 reBlockWind b <;> simp [hg]

/-- Successful unconditional insert, when the credentials are present and
the store is reachable. -/
theorem insert_ok (env : Env) (data : Reading) (store : Store)
    (hc : ¬ (env.supabase_url = "" ∨ env.supabase_key = ""))
    (h3 : store.failing = false) :
    insert_weather_data env data store =
      .ok (⟨store.records ++
            [⟨store.nextId, data.temperature, data.wind, data.precipitation, data.created_at⟩],
            store.nextId + 1, false⟩,
           ⟨store.nextId, data.temperature, data.wind, data.precipitation, data.created_at⟩) := by
  simp [insert_weather_data, get_supabase_client, if_neg hc, h3]

/-- C1 — corrected.  `insert_weather_data` performs no query for an
existing record and no duplicate check of any kind: it inserts
unconditionally.  Two successive calls with Readings sharing an identical
`created_at` therefore both succeed as inserts and add two rows for that
timestamp, rather than one insert and one duplicate skip. -/
theorem c1_amended (env : Env) (data : Reading) (store : Store)
    (h1 : env.supabase_url ≠ "") (h2 : env.supabase_key ≠ "")
    (h3 : store.failing = false) :
    ∃ s1 r1 s2 r2,
      insert_weather_data env data store = .ok (s1, r1) ∧
      insert_weather_data env data s1 = .ok (s2, r2) ∧
      recordsAt s2 data.created_at = recordsAt store data.created_at + 2 := by
  have hc : ¬ (env.supabase_url = "" ∨ env.supabase_key = "") := by
    rintro (h | h)
    · exact h1 h
    · exact h2 h
  refine ⟨_, _, _, _, insert_ok env data store hc h3, insert_ok env data _ hc rfl, ?_⟩
  simp [recordsAt, List.filter_append]

/-- C1 counterexample to the claim as stated: on an empty store, two
successive inserts of the same Reading leave two records for the shared
timestamp, not one. -/
theorem c1_counterexample :
    ((insert_weather_data ⟨"u", "k"⟩ ⟨"1.6", "0.6", "0", "T"⟩ ⟨[], 1, false⟩).bind
        (fun p => (insert_weather_data ⟨"u", "k"⟩ ⟨"1.6", "0.6", "0", "T"⟩ p.1).map
          (fun q => recordsAt q.1 "T"))) = .ok 2 ∧ (2 : Nat) ≠ 1 := by
  exact ⟨rfl, by decide⟩

/-- C1 witness for the amended theorem. -/
theorem c1_amended_witness :
    ∃ s1 r1 s2 r2,
      insert_weather_data ⟨"u", "k"⟩ ⟨"1.6", "0.6", "0", "T"⟩ ⟨[], 1, false⟩ = .ok (s1, r1) ∧
      insert_weather_data ⟨"u", "k"⟩ ⟨"1.6", "0.6", "0", "T"⟩ s1 = .ok (s2, r2) ∧
      recordsAt s2 "T" = recordsAt ⟨[], 1, false⟩ "T" + 2 :=
  c1_amended ⟨"u", "k"⟩ ⟨"1.6", "0.6", "0", "T"⟩ ⟨[], 1, false⟩
    (by decide) (by decide) rfl

/-- C2 — corrected.  The script applies no day-rollover correction at
all: whenever a time-of-day is captured (and is in range, so `replace`
does not raise), the resolved `observed_at` carries the reference date
verbatim, whatever the captured hour is. -/
theorem c2_amended (page : Page) (today : PyDateTime) (s : String) (hh mi : Nat)
    (hs : page.obsSection = some s) (ht : searchTime s = some (hh, mi))
    (h23 : hh ≤ 23) (h59 : mi ≤ 59) :
    ∃ r, scrape_weather_data page today = .ok r ∧
      r.created_at = isoformat ⟨today.year, today.month, today.day, hh, mi, 0, 0⟩ := by
  simp only [scrape_weather_data, method1, hs, ht, pyReplaceTime,
    if_pos (And.intro h23 h59), Except.map]
  exact ⟨_, rfl, rfl⟩

/-- C2 counterexample to the claim as stated: reference instant at 00:15
with captured time 23:50 resolves to the SAME calendar day (2026-01-10),
not to the previous day. -/
theorem c2_counterexample :
    scrape_weather_data ⟨some "23:50時点", [], ""⟩ ⟨2026, 1, 10, 0, 15, 0, 0⟩ =
      .ok ⟨"N/A", "N/A", "0", "2026-01-10T23:50:00"⟩ ∧
    ("2026-01-10T23:50:00" : String) ≠ "2026-01-09T23:50:00" := by
  exact ⟨rfl, by decide⟩

/-- C2 witness for the amended theorem, at the rollover-relevant input:
reference 00:15, captured 23:50, same-day result. -/
theorem c2_amended_witness :
    ∃ r, scrape_weather_data ⟨some "23:50時点", [], ""⟩ ⟨2026, 1, 10, 0, 15, 0, 0⟩ = .ok r ∧
      r.created_at = isoformat ⟨2026, 1, 10, 23, 50, 0, 0⟩ :=
  c2_amended ⟨some "23:50時点", [], ""⟩ ⟨2026, 1, 10, 0, 15, 0, 0⟩ "23:50時点" 23 50
    rfl rfl (by decide) (by decide)

/-- C3 — the sign of a negative temperature is dropped on the keyword
path, whatever minus glyph the source uses.  The keyword pattern skips
`[^\d]*`, a class that contains the ASCII hyphen-minus itself, so the
greedy skip consumes the sign and the optional `-?` of the capture group
matches nothing: the parsed value is "3.2" for the ASCII hyphen-minus,
the minus sign, the en-dash and the fullwidth minus alike, never "-3.2".
No glyph normalization exists anywhere in the script. -/
theorem c3_sign_dropped :
    scrape_weather_data ⟨some "気温 -3.2℃", [], ""⟩ ⟨2026, 1, 10, 0, 15, 0, 0⟩ =
      .ok ⟨"3.2", "N/A", "0", "2026-01-10T00:15:00"⟩ ∧
    scrape_weather_data ⟨some "気温 −3.2℃", [], ""⟩ ⟨2026, 1, 10, 0, 15, 0, 0⟩ =
      .ok ⟨"3.2", "N/A", "0", "2026-01-10T00:15:00"⟩ ∧
    scrape_weather_data ⟨some "気温 –3.2℃", [], ""⟩ ⟨2026, 1, 10, 0, 15, 0, 0⟩ =
      .ok ⟨"3.2", "N/A", "0", "2026-01-10T00:15:00"⟩ ∧
    scrape_weather_data ⟨some "気温 －3.2℃", [], ""⟩ ⟨2026, 1, 10, 0, 15, 0, 0⟩ =
      .ok ⟨"3.2", "N/A", "0", "2026-01-10T00:15:00"⟩ ∧
    ("3.2" : String) ≠ "-3.2" := by
  exact ⟨rfl, rfl, rfl, rfl, by decide⟩

/-- C4 — corrected.  Extraction does return a best-effort Reading for
every malformed input EXCEPT when the captured observation time is out of
range: a region text matching the time pattern with hour above 23 or
minute above 59 makes `replace` raise `ValueError`.  Under the in-range
condition the function always returns a Reading. -/
theorem c4_amended (page : Page) (today : PyDateTime)
    (h : timeFieldsValid page = true) :
    ∃ r, scrape_weather_data page today = .ok r := by
  obtain ⟨v, hv⟩ : ∃ v, method1 page.obsSection today = .ok v := by
    cases hs : page.obsSection with
    | none => exact ⟨_, rfl⟩
    | some s =>
      cases ht : searchTime s with
      | none =>
        exact ⟨(method1Temp s, method1Wind s, none), by simp only [method1, ht]⟩
      | some hm =>
        have hb : hm.1 ≤ 23 ∧ hm.2 ≤ 59 := by
          have h2 := h
          simp only [timeFieldsValid, hs, ht, Bool.and_eq_true, decide_eq_true_eq] at h2
          exact h2
        exact ⟨(method1Temp s, method1Wind s,
                some ⟨today.year, today.month, today.day, hm.1, hm.2, 0, 0⟩),
               by simp only [method1, ht, pyReplaceTime, if_pos hb, Except.map]⟩
  simp only [scrape_weather_data, hv]
  exact ⟨_, rfl⟩

/-- C4 counterexample to the claim as stated: a page whose observation
region reads "25:00時点" makes the extraction raise `ValueError` instead
of returning a Reading. -/
theorem c4_counterexample :
    scrape_weather_data ⟨some "25:00時点", [], ""⟩ ⟨2026, 1, 10, 0, 15, 0, 0⟩ =
      .error "ValueError" := rfl

/-- C4 witness for the amended theorem, at a page that does carry an
in-range observation time. -/
theorem c4_amended_witness :
    ∃ r, scrape_weather_data ⟨some "7:45時点", [], ""⟩ ⟨2026, 1, 10, 8, 0, 0, 0⟩ = .ok r :=
  c4_amended ⟨some "7:45時点", [], ""⟩ ⟨2026, 1, 10, 8, 0, 0, 0⟩ rfl

/-- C5 — corrected.  The Reading always carries a timestamp, falling back
to the current instant when no time-of-day was parsed; but the script
serializes a NAIVE `datetime`, so the string carries no timezone offset
at all (in particular no UTC+9 marker), and on the fallback path it keeps
the microseconds of the wall clock rather than second precision. -/
theorem c5_amended (page : Page) (today : PyDateTime) (r : Reading)
    (h : scrape_weather_data page today = .ok r) :
    r.created_at = isoformat today ∨
      ∃ hh mi, hh ≤ 23 ∧ mi ≤ 59 ∧
        r.created_at = isoformat ⟨today.year, today.month, today.day, hh, mi, 0, 0⟩ := by
  cases hs : page.obsSection with
  | none =>
    left
    simp only [scrape_weather_data, method1, hs, Except.ok.injEq] at h
    subst h
    rfl
  | some s =>
    cases ht : searchTime s with
    | none =>
      left
      simp only [scrape_weather_data, method1, hs, ht, Except.ok.injEq] at h
      subst h
      rfl
    | some hm =>
      by_cases hb : hm.1 ≤ 23 ∧ hm.2 ≤ 59
      · right
        refine ⟨hm.1, hm.2, hb.1, hb.2, ?_⟩
        simp only [scrape_weather_data, method1, hs, ht, pyReplaceTime, if_pos hb,
          Except.map, Except.ok.injEq] at h
        subst h
        rfl
      · simp only [scrape_weather_data, method1, hs, ht, pyReplaceTime, if_neg hb,
          Except.map] at h
        exact Except.noConfusion h

/-- C5 counterexample to the claim as stated: the serialized timestamp of
an extraction carrying an observation time contains no plus sign at all,
hence no "+09:00" offset — the value is timezone-naive. -/
theorem c5_counterexample :
    scrape_weather_data ⟨some "13:45時点", [], ""⟩ ⟨2026, 1, 10, 14, 0, 0, 0⟩ =
      .ok ⟨"N/A", "N/A", "0", "2026-01-10T13:45:00"⟩ ∧
    ¬ ('+' ∈ "2026-01-10T13:45:00".data) := by
  exact ⟨rfl, by decide⟩

/-- C5 witness for the amended theorem. -/
theorem c5_amended_witness :
    (⟨"N/A", "N/A", "0", "2026-01-10T00:15:00"⟩ : Reading).created_at =
        isoformat ⟨2026, 1, 10, 0, 15, 0, 0⟩ ∨
      ∃ hh mi, hh ≤ 23 ∧ mi ≤ 59 ∧
        (⟨"N/A", "N/A", "0", "2026-01-10T00:15:00"⟩ : Reading).created_at =
          isoformat ⟨2026, 1, 10, hh, mi, 0, 0⟩ :=
  c5_amended ⟨none, [], ""⟩ ⟨2026, 1, 10, 0, 15, 0, 0⟩
    ⟨"N/A", "N/A", "0", "2026-01-10T00:15:00"⟩ rfl

/-- C6 — corrected.  A page lacking the primary marker can still yield
non-sentinel values: the block fallback scans the `obs_block` texts and
the precipitation search is page-wide.  The claimed all-sentinel result
holds once the page also has no observation blocks and no millimeter
match; `observed_at` is then the serialized reference instant. -/
theorem c6_amended (page : Page) (today : PyDateTime)
    (h1 : page.obsSection = none) (h2 : page.obsBlocks = [])
    (h3 : searchGroup1 rePrecip page.htmlContent = none) :
    scrape_weather_data page today = .ok ⟨"N/A", "N/A", "0", isoformat today⟩ := by
  simp [scrape_weather_data, method1, method2, h1, h2, h3]

/-- C6 counterexample to the claim as stated: a page with no primary
marker but one observation block yields temperature "5.0", not the
sentinel. -/
theorem c6_counterexample :
    scrape_weather_data ⟨none, ["気温 5.0"], ""⟩ ⟨2026, 1, 10, 0, 15, 0, 0⟩ =
      .ok ⟨"5.0", "N/A", "0", "2026-01-10T00:15:00"⟩ ∧
    ("5.0" : String) ≠ "N/A" := by
  exact ⟨rfl, by decide⟩

/-- C6 witness for the amended theorem. -/
theorem c6_amended_witness :
    scrape_weather_data ⟨none, [], "no rain figure here"⟩ ⟨2026, 1, 10, 0, 15, 0, 0⟩ =
      .ok ⟨"N/A", "N/A", "0", isoformat ⟨2026, 1, 10, 0, 15, 0, 0⟩⟩ :=
  c6_amended ⟨none, [], "no rain figure here"⟩ ⟨2026, 1, 10, 0, 15, 0, 0⟩ rfl rfl rfl

/-- C7 — confirmed.  Method 2 runs exactly when the temperature is still
the sentinel after Method 1: when Method 1 produced a temperature, the
result keeps Method 1's temperature and wind untouched (so a missing wind
does not trigger the block fallback), and when it did not, the result
pair is exactly the block-fallback scan. -/
theorem c7_fallback_trigger (page : Page) (today : PyDateTime)
    (t1 w1 : String) (ot : Option PyDateTime)
    (h1 : method1 page.obsSection today = .ok (t1, w1, ot)) :
    ∃ r, scrape_weather_data page today = .ok r ∧
      (t1 ≠ "N/A" → r.temperature = t1 ∧ r.wind = w1) ∧
      (t1 = "N/A" → (r.temperature, r.wind) = method2 page.obsBlocks t1 w1) := by
  by_cases ht : t1 = "N/A"
  · refine ⟨⟨(method2 page.obsBlocks t1 w1).1, (method2 page.obsBlocks t1 w1).2,
        (match searchGroup1 rePrecip page.htmlContent with | some p => p | none => "0"),
        (match ot with | some t => isoformat t | none => isoformat today)⟩, ?_, ?_, ?_⟩
    · simp only [scrape_weather_data, h1, if_pos ht]
      cases ot <;> rfl
    · exact fun hne => absurd ht hne
    · exact fun _ => rfl
  · refine ⟨⟨t1, w1,
        (match searchGroup1 rePrecip page.htmlContent with | some p => p | none => "0"),
        (match ot with | some t => isoformat t | none => isoformat today)⟩, ?_, ?_, ?_⟩
    · simp only [scrape_weather_data, h1, if_neg ht]
      cases ot <;> rfl
    · exact fun _ => ⟨rfl, rfl⟩
    · exact fun he => absurd he ht

/-- C7 witness: Method 1 finds temperature "1.6" but no wind; the block
fallback is not triggered even though an observation block carries a wind
figure, and the wind stays the sentinel. -/
theorem c7_fallback_trigger_witness :
    ∃ r, scrape_weather_data ⟨some "気温 1.6℃", ["風 9.9 m/s"], ""⟩
        ⟨2026, 1, 10, 0, 15, 0, 0⟩ = .ok r ∧
      (("1.6" : String) ≠ "N/A" → r.temperature = "1.6" ∧ r.wind = "N/A") ∧
      (("1.6" : String) = "N/A" →
        (r.temperature, r.wind) = method2 ["風 9.9 m/s"] "1.6" "N/A") :=
  c7_fallback_trigger ⟨some "気温 1.6℃", ["風 9.9 m/s"], ""⟩
    ⟨2026, 1, 10, 0, 15, 0, 0⟩ "1.6" "N/A" none rfl

/-- C8 — corrected.  The Method-2 loop has no break: every matching block
overwrites the previous value, so for each field the value of the LAST
matching block in document order wins, not the first. -/
theorem c8_amended (blocks : List String) (t w : String) :
    method2 blocks t w =
      (lastD (blocks.filterMap blockTempValue) t,
       lastD (blocks.filterMap blockWindValue) w) := by
  induction blocks generalizing t w with
  | nil => rfl
  | cons b rest ih =>
    rw [method2_cons, ih]
    cases hb : blockTempValue b <;> cases hw : blockWindValue b <;>
      simp [List.filterMap_cons, hb, hw, lastD]

/-- C8 counterexample to the claim as stated: with two temperature blocks
the extraction returns the second block's value "2.0", not the first
block's "1.0". -/
theorem c8_counterexample :
    scrape_weather_data ⟨none, ["気温 1.0", "気温 2.0"], ""⟩ ⟨2026, 1, 10, 0, 15, 0, 0⟩ =
      .ok ⟨"2.0", "N/A", "0", "2026-01-10T00:15:00"⟩ ∧
    blockTempValue "気温 1.0" = some "1.0" ∧
    ("2.0" : String) ≠ "1.0" := by
  exact ⟨rfl, rfl, by decide⟩

/-- C9 — corrected.  The credentials are checked only AFTER the fetch and
the extraction: on the missing-credentials path the run still performs
the page fetch (the trace records it), then skips the insert and returns
`False`; the configuration problem is not reported before the fetch. -/
theorem c9_amended (env : Env) (fetchResult : Except String Page)
    (today : PyDateTime) (store : Store)
    (h : env.supabase_url = "" ∨ env.supabase_key = "") :
    (run_scraper_once env fetchResult today store).2.1 = [Event.fetchAttempt] ∧
    (run_scraper_once env fetchResult today store).1 ≠ .ok true := by
  cases fetchResult with
  | error e => exact ⟨rfl, by simp [run_scraper_once]⟩
  | ok page =>
    cases hsc : scrape_weather_data page today with
    | error e => simp [run_scraper_once, hsc]
    | ok reading => simp [run_scraper_once, hsc, if_pos h]

/-- C9 counterexample to the claim as stated: with the access key absent
the run fetches anyway (the trace holds the fetch event) and only then
reports failure. -/
theorem c9_counterexample :
    run_scraper_once ⟨"https://example.supabase.co", ""⟩ (.ok ⟨none, [], ""⟩)
        ⟨2026, 1, 10, 0, 15, 0, 0⟩ ⟨[], 1, false⟩ =
      (.ok false, [Event.fetchAttempt], ⟨[], 1, false⟩) := rfl

/-- C9 witness for the amended theorem. -/
theorem c9_amended_witness :
    (run_scraper_once ⟨"", "k"⟩ (.ok ⟨none, [], ""⟩)
        ⟨2026, 1, 10, 0, 15, 0, 0⟩ ⟨[], 1, false⟩).2.1 = [Event.fetchAttempt] ∧
    (run_scraper_once ⟨"", "k"⟩ (.ok ⟨none, [], ""⟩)
        ⟨2026, 1, 10, 0, 15, 0, 0⟩ ⟨[], 1, false⟩).1 ≠ .ok true :=
  c9_amended ⟨"", "k"⟩ (.ok ⟨none, [], ""⟩) ⟨2026, 1, 10, 0, 15, 0, 0⟩ ⟨[], 1, false⟩
    (Or.inl rfl)

/-- C10 — corrected.  A run whose insert succeeds returns the success
status `True` and a store failure returns `False`; but a fetch failure
propagates as an exception which the `main` loop catches, sleeps on, and
retries in-process — the process never terminates with a failure status
(there is no duplicate-skip outcome at all). -/
theorem c10_amended (env : Env) (page : Page) (today : PyDateTime)
    (recs : List StoredRecord) (nid : Nat) (r : Reading)
    (h1 : env.supabase_url ≠ "") (h2 : env.supabase_key ≠ "")
    (hsc : scrape_weather_data page today = .ok r) :
    (run_scraper_once env (.ok page) today ⟨recs, nid, false⟩).1 = .ok true ∧
    (run_scraper_once env (.ok page) today ⟨recs, nid, true⟩).1 = .ok false ∧
    ∀ e, (run_scraper_once env (.error e) today ⟨recs, nid, false⟩).1 = .error e ∧
      main_iteration (run_scraper_once env (.error e) today ⟨recs, nid, false⟩).1 =
        IterOutcome.swallowSleepRetry := by
  have hc : ¬ (env.supabase_url = "" ∨ env.supabase_key = "") := by
    rintro (hx | hx)
    · exact h1 hx
    · exact h2 hx
  refine ⟨?_, ?_, fun e => ⟨rfl, rfl⟩⟩
  · simp [run_scraper_once, hsc, if_neg hc, insert_weather_data, get_supabase_client]
  · simp [run_scraper_once, hsc, if_neg hc, insert_weather_data, get_supabase_client]

/-- C10 counterexample to the claim as stated: a run whose fetch fails
does not terminate with a failure status; `main` swallows the exception
and retries in-process. -/
theorem c10_counterexample :
    (run_scraper_once ⟨"u", "k"⟩ (.error "FetchError")
        ⟨2026, 1, 10, 0, 15, 0, 0⟩ ⟨[], 1, false⟩).1 = .error "FetchError" ∧
    main_iteration (run_scraper_once ⟨"u", "k"⟩ (.error "FetchError")
        ⟨2026, 1, 10, 0, 15, 0, 0⟩ ⟨[], 1, false⟩).1 = IterOutcome.swallowSleepRetry := by
  exact ⟨rfl, rfl⟩

/-- C10 witness for the amended theorem. -/
theorem c10_amended_witness :
    (run_scraper_once ⟨"u", "k"⟩ (.ok ⟨none, [], ""⟩)
        ⟨2026, 1, 10, 0, 15, 0, 0⟩ ⟨[], 1, false⟩).1 = .ok true ∧
    (run_scraper_once ⟨"u", "k"⟩ (.ok ⟨none, [], ""⟩)
        ⟨2026, 1, 10, 0, 15, 0, 0⟩ ⟨[], 1, true⟩).1 = .ok false ∧
    ∀ e, (run_scraper_once ⟨"u", "k"⟩ (.error e)
        ⟨2026, 1, 10, 0, 15, 0, 0⟩ ⟨[], 1, false⟩).1 = .error e ∧
      main_iteration (run_scraper_once ⟨"u", "k"⟩ (.error e)
          ⟨2026, 1, 10, 0, 15, 0, 0⟩ ⟨[], 1, false⟩).1 = IterOutcome.swallowSleepRetry :=
  c10_amended ⟨"u", "k"⟩ ⟨none, [], ""⟩ ⟨2026, 1, 10, 0, 15, 0, 0⟩ [] 1
    ⟨"N/A", "N/A", "0", "2026-01-10T00:15:00"⟩ (by decide) (by decide) rfl

end SaitamaWeather
